import Mathlib

/-!
Verification development for the gcp-helper repository: a shallow embedding
of the resource-lifecycle and data-movement helpers (`src/bigquery.py`,
`src/storage.py`, `src/pubsub.py`, `src/redis.py`, `src/bigtable.py`,
`src/utils.py`) together with theorems settling the specification claims.

The Google client libraries are external collaborators; their documented
semantics (the effect of `exists_ok` / `not_found_ok` flags, the errors
raised when a resource is present or absent) are modelled as explicit state
transition functions named `*_api_*`, and the helper methods of the
repository are translated on top of them, following the Python source line
by line.  Backend state is explicit: each backend kind is a record of the
resources currently alive, and every helper call is a function from state
to `Except GError (result × state)`.
-/

/-- Error kinds surfaced by backend calls, following the error taxonomy of
the client libraries: `conflict` is an already-exists rejection (HTTP 409 /
ALREADY_EXISTS), `notFound` a missing-resource rejection (404 / NOT_FOUND),
`badRequest` an invalid-request rejection (400, e.g. deleting a non-empty
dataset without `delete_contents`).  `loadJobFailed` carries the
diagnostics of a failed asynchronous load job. -/
inductive GError where
  | conflict
  | notFound
  | badRequest
  | fileNotFound
  | formatError
  | loadJobFailed (diag : String)
  deriving DecidableEq, Repr

/-! ## Resource identity resolvers

Each backend's fully-qualified-path formatting, exactly as f-strings in the
source build them. -/

/-- Formats `f"{project}.{dataset_id}"` — src/bigquery.py line 24. -/
def bq_dataset_path (project dataset_id : String) : String :=
  project ++ "." ++ dataset_id

/-- Formats `f"{self.project_id}.{dataset_name}.{table_name}"` — src/bigquery.py
lines 65, 89, 122, 138. -/
def bq_table_path (project dataset_name table_name : String) : String :=
  project ++ "." ++ dataset_name ++ "." ++ table_name

/-- Formats `f"projects/{project_id}/locations/{location}"` — src/redis.py line 18. -/
def memorystore_parent_path (project location : String) : String :=
  "projects/" ++ project ++ "/locations/" ++ location

/-- Formats `f"{self.parent}/instances/{instance_id}"` — src/redis.py lines 49, 62. -/
def memorystore_instance_path (parent instance_id : String) : String :=
  parent ++ "/instances/" ++ instance_id

/-- Library call `publisher.topic_path(project, topic_id)` — the library formats
`projects/{project}/topics/{topic_id}`. -/
def pubsub_topic_path (project topic_id : String) : String :=
  "projects/" ++ project ++ "/topics/" ++ topic_id

/-- Library call `subscriber.subscription_path(project, subscription_id)` — the library
formats `projects/{project}/subscriptions/{subscription_id}`. -/
def pubsub_subscription_path (project subscription_id : String) : String :=
  "projects/" ++ project ++ "/subscriptions/" ++ subscription_id

/-- Formats `f"gs://{bucket_name}/{blob_name}"` — src/storage.py line 100. -/
def gcs_uri (bucket_name blob_name : String) : String :=
  "gs://" ++ bucket_name ++ "/" ++ blob_name

/-! ## BigQuery backend (src/bigquery.py) -/

/-- A BigQuery table object: id plus the configuration the helper sets
(`bigquery.Table(table_id, schema=schema)`, optional
`table.time_partitioning`, `table.clustering_fields`, `table.view_query`). -/
structure BQTable where
  table_id : String
  schema : List (String × String)
  time_partitioning_field : Option String
  clustering_fields : Option (List String)
  view_query : Option String
  deriving DecidableEq, Repr

/-- Live state of the warehouse backend: the datasets and tables (views
included, as in BigQuery a view is a table with `view_query` set) that
currently exist. -/
structure BQState where
  datasets : List String
  tables : List BQTable
  deriving DecidableEq, Repr

/-- Library call `google.cloud.bigquery.Client.create_dataset(dataset, exists_ok=...)`:
with `exists_ok` a present dataset is returned unchanged, otherwise a
present dataset raises Conflict; an absent dataset is created. -/
def bq_api_create_dataset (st : BQState) (dataset_id : String)
    (exists_ok : Bool) : Except GError (String × BQState) :=
  if st.datasets.contains dataset_id then
    if exists_ok then .ok (dataset_id, st) else .error .conflict
  else
    .ok (dataset_id, { st with datasets := dataset_id :: st.datasets })

/-- Library id resolution (`DatasetReference.from_string` with the
client's project as default): a reference containing a dot is already a
fully-qualified `project.dataset` path, a bare dataset id is qualified
against the client's project. -/
def bq_resolve_dataset_ref (project dataset_ref : String) : String :=
  if dataset_ref.data.contains '.' then dataset_ref
  else bq_dataset_path project dataset_ref

/-- A table (by fully-qualified id) lives inside the dataset with the given
fully-qualified path. -/
def bq_table_in_dataset (dataset_path table_id : String) : Bool :=
  List.isPrefixOf (dataset_path ++ ".").data table_id.data

/-- Library call `Client.delete_dataset(dataset, delete_contents=..., not_found_ok=...)`:
the dataset reference is resolved against the client's project; with
`not_found_ok` an absent dataset is a silent no-op (otherwise NotFound);
deleting a present dataset that still contains tables fails with BadRequest
unless `delete_contents` is set, in which case the contained tables are
deleted with it. -/
def bq_api_delete_dataset (project : String) (st : BQState)
    (dataset_ref : String) (delete_contents not_found_ok : Bool) :
    Except GError BQState :=
  let path := bq_resolve_dataset_ref project dataset_ref
  if st.datasets.contains path then
    if delete_contents || !(st.tables.any (fun u => bq_table_in_dataset path u.table_id)) then
      .ok { st with
        datasets := st.datasets.filter (fun d => d ≠ path),
        tables :=
          if delete_contents then
            st.tables.filter (fun u => ¬ bq_table_in_dataset path u.table_id = true)
          else st.tables }
    else .error .badRequest
  else if not_found_ok then .ok st
  else .error .notFound

/-- Library call `Client.create_table(table, exists_ok=...)`: with `exists_ok` a present
table is returned as it exists on the backend (the caller's requested
configuration is ignored), otherwise raises Conflict. -/
def bq_api_create_table (st : BQState) (t : BQTable)
    (exists_ok : Bool) : Except GError (BQTable × BQState) :=
  match st.tables.find? (fun u => u.table_id == t.table_id) with
  | some u => if exists_ok then .ok (u, st) else .error .conflict
  | none => .ok (t, { st with tables := t :: st.tables })

/-- Library call `Client.delete_table(table_id, not_found_ok=...)`. -/
def bq_api_delete_table (st : BQState) (table_id : String)
    (not_found_ok : Bool) : Except GError BQState :=
  if st.tables.any (fun u => u.table_id == table_id) then
    .ok { st with tables := st.tables.filter (fun u => u.table_id ≠ table_id) }
  else if not_found_ok then .ok st
  else .error .notFound

/-- The helper holds the project id; `bigquery.Client(project_id)` exposes
it back as `client.project`. -/
structure BigQueryClientHelper where
  project_id : String
  deriving DecidableEq, Repr

/-- src/bigquery.py lines 14-25: build `f"{self.client.project}.{dataset_id}"`
and call `create_dataset(dataset, exists_ok=True)`. -/
def BigQueryClientHelper.create_dataset (self : BigQueryClientHelper)
    (st : BQState) (dataset_id : String) : Except GError (String × BQState) :=
  bq_api_create_dataset st (bq_dataset_path self.project_id dataset_id) true

/-- src/bigquery.py lines 27-38: `delete_dataset(dataset_id,
delete_contents=delete_contents, not_found_ok=True)` — the caller's
`delete_contents` flag (default False in the source) is passed through,
`not_found_ok` is fixed to True. -/
def BigQueryClientHelper.delete_dataset (self : BigQueryClientHelper)
    (st : BQState) (dataset_id : String) (delete_contents : Bool) :
    Except GError BQState :=
  bq_api_delete_dataset self.project_id st dataset_id delete_contents true

/-- src/bigquery.py lines 70-95: format the table id, build
`bigquery.Table(table_id, schema=schema)`, set partitioning / clustering
when given, and call `create_table(table, exists_ok=True)`. -/
def BigQueryClientHelper.create_table (self : BigQueryClientHelper)
    (st : BQState) (dataset_name table_name : String)
    (schema : List (String × String)) (partition_field : Option String)
    (cluster_fields : Option (List String)) :
    Except GError (BQTable × BQState) :=
  let table_id := bq_table_path self.project_id dataset_name table_name
  let table : BQTable :=
    { table_id := table_id, schema := schema,
      time_partitioning_field := partition_field,
      clustering_fields := cluster_fields, view_query := none }
  bq_api_create_table st table true

/-- src/bigquery.py lines 97-108: `delete_table(f"...", not_found_ok=True)`. -/
def BigQueryClientHelper.delete_table (self : BigQueryClientHelper)
    (st : BQState) (dataset_name table_name : String) : Except GError BQState :=
  bq_api_delete_table st (bq_table_path self.project_id dataset_name table_name) true

/-- src/bigquery.py lines 110-125: build `bigquery.Table(view_id)`, set
`view.view_query = query`, call `create_table(view, exists_ok=True)`.
Unlike `create_dataset` and `create_table`, this method is annotated
`-> None` and has no return statement: the handle the library returns is
discarded, so only the updated backend state comes back. -/
def BigQueryClientHelper.create_view (self : BigQueryClientHelper)
    (st : BQState) (dataset_name view_name query : String) :
    Except GError BQState := do
  let view_id := bq_table_path self.project_id dataset_name view_name
  let view : BQTable :=
    { table_id := view_id, schema := [], time_partitioning_field := none,
      clustering_fields := none, view_query := some query }
  let r ← bq_api_create_table st view true
  .ok r.2

/-- src/bigquery.py lines 127-139: `delete_table(view_id, not_found_ok=True)`. -/
def BigQueryClientHelper.delete_view (self : BigQueryClientHelper)
    (st : BQState) (dataset_name view_name : String) : Except GError BQState :=
  bq_api_delete_table st (bq_table_path self.project_id dataset_name view_name) true

/-! ## Google Cloud Storage backend (src/storage.py) -/

/-- Live state of the object-storage backend: existing buckets, and blobs
keyed by (bucket name, blob name) with their byte content. -/
structure GCSState where
  buckets : List String
  blobs : List ((String × String) × List Nat)
  deriving DecidableEq, Repr

/-- Library call `storage.Client.create_bucket(bucket_name)`: the GCS API has no
exists-ok flag — a present bucket raises Conflict (409). -/
def gcs_api_create_bucket (st : GCSState) (bucket_name : String) :
    Except GError (String × GCSState) :=
  if st.buckets.contains bucket_name then .error .conflict
  else .ok (bucket_name, { st with buckets := bucket_name :: st.buckets })

/-- Library call `storage.Client.get_bucket(bucket_name)`: raises NotFound (404) when
the bucket does not exist, returns the bucket handle otherwise. -/
def gcs_api_get_bucket (st : GCSState) (bucket_name : String) :
    Except GError String :=
  if st.buckets.contains bucket_name then .ok bucket_name
  else .error .notFound

/-- Library call `bucket.delete()`: deletes the bucket; raises NotFound if it vanished. -/
def gcs_api_bucket_delete (st : GCSState) (bucket_name : String) :
    Except GError GCSState :=
  if st.buckets.contains bucket_name then
    .ok { st with buckets := st.buckets.filter (fun b => b ≠ bucket_name) }
  else .error .notFound

/-- Library call `source_bucket.copy_blob(source_blob, destination_bucket, name)`:
copies the source blob's bytes under the destination key; raises NotFound
if the source blob does not exist. -/
def gcs_api_copy_blob (st : GCSState) (src_bucket src_blob dst_bucket
    dst_blob : String) : Except GError GCSState :=
  match st.blobs.find? (fun e => e.1 == (src_bucket, src_blob)) with
  | none => .error .notFound
  | some e =>
      .ok { st with blobs :=
        ((dst_bucket, dst_blob), e.2) ::
          st.blobs.filter (fun u => u.1 ≠ (dst_bucket, dst_blob)) }

/-- Library call `blob.delete()`: removes the blob; raises NotFound when absent. -/
def gcs_api_blob_delete (st : GCSState) (bucket_name blob_name : String) :
    Except GError GCSState :=
  if st.blobs.any (fun e => e.1 == (bucket_name, blob_name)) then
    .ok { st with blobs := st.blobs.filter (fun e => e.1 ≠ (bucket_name, blob_name)) }
  else .error .notFound

/-- Outcome of an asynchronous BigQuery load job, decided by the backend. -/
inductive JobOutcome where
  | success
  | failure (diag : String)
  deriving DecidableEq, Repr

/-- The handle `Client.load_table_from_uri(uri, table_id, job_config)`
returns: the request that was submitted plus the backend-side outcome. -/
structure LoadJob where
  uri : String
  table_id : String
  source_format : String
  outcome : JobOutcome
  deriving DecidableEq, Repr

/-- Library call `load_job.result()`: blocks until the backend job completes, then
returns normally on success and raises the job's diagnostics on failure. -/
def LoadJob.wait_result (j : LoadJob) : Except GError Unit :=
  match j.outcome with
  | .success => .ok ()
  | .failure d => .error (.loadJobFailed d)

/-- The storage helper holds the project; it owns both a storage client and
a BigQuery client (src/storage.py lines 6-14). -/
structure GCSClientHelper where
  project_id : String
  deriving DecidableEq, Repr

/-- src/storage.py lines 16-27: `create_bucket(bucket_name)` — no
exists-ok handling; the backend Conflict propagates. -/
def GCSClientHelper.create_bucket (self : GCSClientHelper) (st : GCSState)
    (bucket_name : String) : Except GError (String × GCSState) :=
  gcs_api_create_bucket st bucket_name

/-- src/storage.py lines 29-40: `get_bucket(bucket_name)` then
`bucket.delete()` — no not-found handling; the backend NotFound propagates. -/
def GCSClientHelper.delete_bucket (self : GCSClientHelper) (st : GCSState)
    (bucket_name : String) : Except GError GCSState := do
  let bucket ← gcs_api_get_bucket st bucket_name
  gcs_api_bucket_delete st bucket

/-- src/storage.py lines 88-103: build `uri = f"gs://{bucket}/{blob}"`, a
CSV `LoadJobConfig`, submit `load_table_from_uri`, then block on
`load_job.result()`.  The submitted job is returned next to the final
result so that theorems can speak about the request and the wait. -/
def GCSClientHelper.blob_to_bigquery_table (self : GCSClientHelper)
    (outcome : JobOutcome) (bucket_name blob_name table_id : String) :
    LoadJob × Except GError Unit :=
  let uri := gcs_uri bucket_name blob_name
  let load_job : LoadJob :=
    { uri := uri, table_id := table_id, source_format := "CSV",
      outcome := outcome }
  (load_job, load_job.wait_result)

/-- src/storage.py lines 118-121, the phase of `move_blob` up to and
including the successful copy: get the source bucket, get the destination
bucket, copy the blob.  The source blob has not yet been deleted when this
phase completes — this is the state an interruption before line 122 leaves
behind. -/
def GCSClientHelper.move_blob_copy_phase (self : GCSClientHelper)
    (st : GCSState) (bucket_name blob_name destination_bucket_name
    destination_blob_name : String) : Except GError GCSState := do
  let source_bucket ← gcs_api_get_bucket st bucket_name
  let destination_bucket ← gcs_api_get_bucket st destination_bucket_name
  gcs_api_copy_blob st source_bucket blob_name destination_bucket
    destination_blob_name

/-- src/storage.py lines 105-122: `move_blob` is the copy phase followed by
`source_blob.delete()` — copy strictly before delete, no rollback. -/
def GCSClientHelper.move_blob (self : GCSClientHelper) (st : GCSState)
    (bucket_name blob_name destination_bucket_name
    destination_blob_name : String) : Except GError GCSState := do
  let st1 ← self.move_blob_copy_phase st bucket_name blob_name
    destination_bucket_name destination_blob_name
  gcs_api_blob_delete st1 bucket_name blob_name

/-- A blob (bucket, name) currently exists in the backend state. -/
def GCSState.blobExists (st : GCSState) (bucket_name blob_name : String) : Bool :=
  st.blobs.any (fun e => e.1 == (bucket_name, blob_name))

/-! ## Pub/Sub backend (src/pubsub.py) -/

/-- Live state of the pub/sub broker: topic paths, subscription paths, the
undelivered backlog (subscription path, ack id, payload), and the ack ids
the broker has received acknowledgements for. -/
structure PubSubState where
  topics : List String
  subscriptions : List String
  backlog : List (String × String × String)
  acked : List String
  deriving DecidableEq, Repr

/-- Library call `publisher.create_topic(request={"name": topic_path})`: raises
AlreadyExists (409) when the topic is present. -/
def pubsub_api_create_topic (st : PubSubState) (topic_path : String) :
    Except GError (String × PubSubState) :=
  if st.topics.contains topic_path then .error .conflict
  else .ok (topic_path, { st with topics := topic_path :: st.topics })

/-- Library call `publisher.delete_topic(request={"topic": topic_path})`: raises
NotFound when the topic is absent. -/
def pubsub_api_delete_topic (st : PubSubState) (topic_path : String) :
    Except GError PubSubState :=
  if st.topics.contains topic_path then
    .ok { st with topics := st.topics.filter (fun t => t ≠ topic_path) }
  else .error .notFound

/-- Library call `subscriber.create_subscription(request={...})`: raises AlreadyExists
when the subscription is present, NotFound when the topic is absent. -/
def pubsub_api_create_subscription (st : PubSubState)
    (subscription_path topic_path : String) :
    Except GError (String × PubSubState) :=
  if st.subscriptions.contains subscription_path then .error .conflict
  else if st.topics.contains topic_path then
    .ok (subscription_path,
      { st with subscriptions := subscription_path :: st.subscriptions })
  else .error .notFound

/-- Library call `subscriber.delete_subscription(request={...})`: raises NotFound when
absent. -/
def pubsub_api_delete_subscription (st : PubSubState)
    (subscription_path : String) : Except GError PubSubState :=
  if st.subscriptions.contains subscription_path then
    .ok { st with subscriptions :=
      st.subscriptions.filter (fun s => s ≠ subscription_path) }
  else .error .notFound

/-- The batch a pull on `subscription_path` with bound `max_messages`
returns: up to `max_messages` of the subscription's backlog entries, each
as an (ack id, payload) pair. -/
def pubsub_pulled_batch (st : PubSubState) (subscription_path : String)
    (max_messages : Nat) : List (String × String) :=
  ((st.backlog.filter (fun m => m.1 == subscription_path)).take
    max_messages).map (fun m => m.2)

/-- Library call `subscriber.pull(request={"subscription": ..., "max_messages": n})`:
returns up to `n` received messages, each an (ack id, payload) pair, from
the subscription's backlog; the messages stay in the backlog (outstanding)
until acknowledged.  Raises NotFound on a missing subscription. -/
def pubsub_api_pull (st : PubSubState) (subscription_path : String)
    (max_messages : Nat) :
    Except GError (List (String × String) × PubSubState) :=
  if st.subscriptions.contains subscription_path then
    .ok (pubsub_pulled_batch st subscription_path max_messages, st)
  else .error .notFound

/-- Library call `subscriber.acknowledge(request={"subscription": ..., "ack_ids": ...})`:
finalizes delivery of the given ack ids — they leave the backlog and are
recorded as acknowledged.  Raises NotFound on a missing subscription. -/
def pubsub_api_acknowledge (st : PubSubState) (subscription_path : String)
    (ack_ids : List String) : Except GError PubSubState :=
  if st.subscriptions.contains subscription_path then
    .ok { st with
      backlog := st.backlog.filter
        (fun m => ¬ (m.1 == subscription_path ∧ ack_ids.contains m.2.1)),
      acked := ack_ids ++ st.acked }
  else .error .notFound

/-- The pub/sub helper holds the project id (src/pubsub.py lines 5-14). -/
structure PubSubClientHelper where
  project_id : String
  deriving DecidableEq, Repr

/-- src/pubsub.py lines 16-28: format the topic path and
`create_topic` — no already-exists handling; the backend error propagates. -/
def PubSubClientHelper.create_topic (self : PubSubClientHelper)
    (st : PubSubState) (topic_id : String) :
    Except GError (String × PubSubState) :=
  pubsub_api_create_topic st (pubsub_topic_path self.project_id topic_id)

/-- src/pubsub.py lines 30-41: `delete_topic` — no not-found handling. -/
def PubSubClientHelper.delete_topic (self : PubSubClientHelper)
    (st : PubSubState) (topic_id : String) : Except GError PubSubState :=
  pubsub_api_delete_topic st (pubsub_topic_path self.project_id topic_id)

/-- src/pubsub.py lines 88-104: pull up to `max_messages` from the
subscription, decode the payloads, collect the ack ids, acknowledge them
all, and only then return the payload list. -/
def PubSubClientHelper.pull_messages (self : PubSubClientHelper)
    (st : PubSubState) (subscription_id : String) (max_messages : Nat) :
    Except GError (List String × PubSubState) := do
  let subscription_path := pubsub_subscription_path self.project_id subscription_id
  let (received, st1) ← pubsub_api_pull st subscription_path max_messages
  let messages := received.map (fun m => m.2)
  let ack_ids := received.map (fun m => m.1)
  let st2 ← pubsub_api_acknowledge st1 subscription_path ack_ids
  .ok (messages, st2)

/-! ## Memorystore (Redis) backend (src/redis.py) -/

/-- A Memorystore instance as the helper creates it: fully-qualified name
plus the `{"tier": ..., "memory_size_gb": ...}` spec dict. -/
structure RedisInstance where
  name : String
  tier : String
  memory_size_gb : Nat
  deriving DecidableEq, Repr

/-- Live state of the cache backend: instances keyed by fully-qualified
name. -/
structure RedisState where
  instances : List RedisInstance
  deriving DecidableEq, Repr

/-- Library call `CloudRedisClient.create_instance(parent, instance_id, instance)`:
raises AlreadyExists (409) when an instance with that name is present;
otherwise the returned operation, once waited on, yields the new
instance. -/
def redis_api_create_instance (st : RedisState) (name tier : String)
    (memory_size_gb : Nat) : Except GError (RedisInstance × RedisState) :=
  if st.instances.any (fun i => i.name == name) then .error .conflict
  else
    let inst : RedisInstance :=
      { name := name, tier := tier, memory_size_gb := memory_size_gb }
    .ok (inst, { st with instances := inst :: st.instances })

/-- Library call `CloudRedisClient.delete_instance(name)`: raises NotFound when the
instance is absent. -/
def redis_api_delete_instance (st : RedisState) (name : String) :
    Except GError RedisState :=
  if st.instances.any (fun i => i.name == name) then
    .ok { st with instances := st.instances.filter (fun i => i.name ≠ name) }
  else .error .notFound

/-- The Memorystore helper stores `parent =
f"projects/{project_id}/locations/{location}"` (src/redis.py lines 6-18). -/
structure MemorystoreClientHelper where
  parent : String
  deriving DecidableEq, Repr

/-- src/redis.py lines 5-18: `__init__` builds the parent path. -/
def MemorystoreClientHelper.mk_of (project_id location : String) :
    MemorystoreClientHelper :=
  { parent := memorystore_parent_path project_id location }

/-- src/redis.py lines 20-37: `create_instance` builds the spec dict and
calls the API, waiting on the returned operation — no already-exists
handling; the backend error propagates. -/
def MemorystoreClientHelper.create_instance (self : MemorystoreClientHelper)
    (st : RedisState) (instance_id tier : String) (memory_size_gb : Nat) :
    Except GError (RedisInstance × RedisState) :=
  redis_api_create_instance st
    (memorystore_instance_path self.parent instance_id) tier memory_size_gb

/-- src/redis.py lines 39-50: `delete_instance` — no not-found handling. -/
def MemorystoreClientHelper.delete_instance (self : MemorystoreClientHelper)
    (st : RedisState) (instance_id : String) : Except GError RedisState :=
  redis_api_delete_instance st
    (memorystore_instance_path self.parent instance_id)

/-! ## Bigtable backend (src/bigtable.py) -/

/-- A Bigtable row's data as `row.to_dict()` renders it: column family id
to (column name, value) pairs. -/
def BTRowData := List (String × List (String × String))
deriving DecidableEq, Repr

/-- Live state of the wide-column backend: instances, tables keyed by
(instance id, table id), rows keyed by (instance id, table id, row key). -/
structure BTState where
  instances : List String
  tables : List (String × String)
  rows : List ((String × String × String) × BTRowData)
  deriving DecidableEq, Repr

/-- Library call `instance.create(clusters=[cluster])`: raises Conflict (409) when the
instance already exists. -/
def bigtable_api_instance_create (st : BTState) (instance_id : String) :
    Except GError (String × BTState) :=
  if st.instances.contains instance_id then .error .conflict
  else .ok (instance_id, { st with instances := instance_id :: st.instances })

/-- Library call `instance.delete()`: raises NotFound when the instance is absent. -/
def bigtable_api_instance_delete (st : BTState) (instance_id : String) :
    Except GError BTState :=
  if st.instances.contains instance_id then
    .ok { st with instances := st.instances.filter (fun i => i ≠ instance_id) }
  else .error .notFound

/-- Library call `table.read_row(row_key)`: raises NotFound when the table does not
exist; otherwise returns the row, or `None` when the row key is absent. -/
def bigtable_api_read_row (st : BTState) (instance_id table_id row_key : String) :
    Except GError (Option BTRowData) :=
  if st.tables.contains (instance_id, table_id) then
    .ok ((st.rows.find? (fun r => r.1 == (instance_id, table_id, row_key))).map
      (fun r => r.2))
  else .error .notFound

/-- The Bigtable helper holds the admin client (src/bigtable.py 6-17). -/
structure BigtableClientHelper where
  project_id : String
  deriving DecidableEq, Repr

/-- src/bigtable.py lines 104-119: `read_row` returns
`row.to_dict() if row else {}` — an absent row key becomes the empty dict
rather than an error; a backend error (missing table) still propagates. -/
def BigtableClientHelper.read_row (self : BigtableClientHelper)
    (st : BTState) (instance_id table_id row_key : String) :
    Except GError BTRowData := do
  let row ← bigtable_api_read_row st instance_id table_id row_key
  match row with
  | some r => .ok r
  | none => .ok ([] : BTRowData)

/-! ## Archive staging utility (src/utils.py)

Local paths are segment lists (splitting a POSIX path string on `/`); the
local filesystem is explicit state.  `os.makedirs`, `os.path.dirname` and
`open(..., "w"/"wb")` are modelled from their documented CPython
behaviour. -/

/-- Content of a file on the local filesystem: text written through
`open(file, "w", encoding="utf-8")` or bytes written through
`open(file_name, "wb")`. -/
inductive FileData where
  | text (s : String)
  | binary (bs : List Nat)
  deriving DecidableEq, Repr

/-- Local filesystem state: the directories that exist and the files that
exist, each file carrying its current content. -/
structure FileSystem where
  dirs : List (List String)
  files : List (List String × FileData)
  deriving DecidableEq, Repr

/-- All nonempty initial segments of a path, deepest last: the directories
`os.makedirs` materializes when creating `d` with all intermediates. -/
def initialSegs : List String → List (List String)
  | [] => []
  | s :: rest => [s] :: (initialSegs rest).map (fun t => s :: t)

/-- Translation of `os.path.dirname`: drop the last path segment. -/
def os_path_dirname (p : List String) : List String := p.dropLast

/-- A directory exists on the filesystem; the filesystem root (the empty
segment list) always exists. -/
def dirExists (fs : FileSystem) (d : List String) : Bool :=
  d.isEmpty || fs.dirs.contains d

/-- Translation of `os.makedirs(d, exist_ok=True)`: creates `d` and every
missing intermediate directory; an existing directory is not an error.
CPython raises FileNotFoundError when called on the empty path (which is
what `os.path.dirname` yields for a bare filename). -/
def os_makedirs (fs : FileSystem) (d : List String) :
    Except GError FileSystem :=
  if d.isEmpty then .error .fileNotFound
  else .ok { fs with dirs := initialSegs d ++ fs.dirs }

/-- Writing a file truncates: whatever content the path held before is
replaced wholesale by the new content (mode `"w"` / `"wb"`, never append). -/
def fsWrite (fs : FileSystem) (p : List String) (v : FileData) : FileSystem :=
  { fs with files := (p, v) :: fs.files.filter (fun e => e.1 ≠ p) }

/-- Current content of the file at `p`, if one exists. -/
def fsRead (fs : FileSystem) (p : List String) : Option FileData :=
  (fs.files.find? (fun e => e.1 == p)).map (fun e => e.2)

/-- Normalization of `..` / `.` / empty segments, resolving each `..`
against the segments before it (the path's meaning to the OS once it is
opened). -/
def normSegsAux : List String → List String → List String
  | acc, [] => acc.reverse
  | acc, seg :: rest =>
      if seg == ".." then normSegsAux acc.tail rest
      else if seg == "." || seg == "" then normSegsAux acc rest
      else normSegsAux (seg :: acc) rest

/-- Resolve a path to its normal form. -/
def normalizePath (p : List String) : List String := normSegsAux [] p

/-- First list is an initial run of the second (segment-wise). -/
def segsBelow : List String → List String → Bool
  | [], _ => true
  | _ :: _, [] => false
  | r :: rs, q :: qs => r == q && segsBelow rs qs

/-- The path `p`, once resolved, stays inside the resolved root. -/
def isUnderRoot (root p : List String) : Bool :=
  segsBelow (normalizePath root) (normalizePath p)

/-- The path contains an upward segment. -/
def pathHasUpSeg (p : List String) : Bool := p.contains ".."

/-- The stored paths of all files lying outside the given root. -/
def filesOutsideRoot (root : List String) (fs : FileSystem) :
    List (List String) :=
  (fs.files.map (fun e => e.1)).filter (fun p => ! isUnderRoot root p)

/-- A backend / filesystem call returned normally rather than raising. -/
def callSucceeds {α : Type} (r : Except GError α) : Bool :=
  match r with
  | .ok _ => true
  | .error _ => false

/-- The files outside `root` after a call, when it returned a filesystem. -/
def resultFilesOutside (root : List String) (r : Except GError FileSystem) :
    List (List String) :=
  match r with
  | .ok fs => filesOutsideRoot root fs
  | .error _ => []

/-- The extractor object of src/utils.py lines 5-17: the raw byte stream
and the staging folder path given at construction. -/
structure ZipExtractor where
  zip_object : List Nat
  folder_file_path : List String
  deriving DecidableEq, Repr

/-- src/utils.py lines 19-29, `_check_is_zipfile`: delegates to
`zipfile.is_zipfile` (external, passed here as an oracle on the byte
stream) and returns the Boolean verdict. -/
def ZipExtractor.check_is_zipfile (self : ZipExtractor)
    (is_zipfile : List Nat → Bool) : Bool :=
  if is_zipfile self.zip_object then true else false

/-- src/utils.py lines 14-17, `__init__`: store the byte stream and the
folder path, then `assert self._check_is_zipfile() == True` — a stream the
checker rejects never yields an extractor object; the raised failure is the
FormatError kind of the error taxonomy (concretely an AssertionError). -/
def mkZipExtractor (is_zipfile : List Nat → Bool) (zip_object : List Nat)
    (folder_file_path : List String) : Except GError ZipExtractor :=
  let self : ZipExtractor :=
    { zip_object := zip_object, folder_file_path := folder_file_path }
  if self.check_is_zipfile is_zipfile = true then .ok self
  else .error .formatError

/-- src/utils.py lines 39-47, `write_string_to_file`: `open(file, "w",
encoding="utf-8")` then write.  There is no `os.makedirs` call here: when
the parent directory does not exist the open itself raises
FileNotFoundError; otherwise the file is created or truncated. -/
def ZipExtractor.write_string_to_file (self : ZipExtractor)
    (fs : FileSystem) (file : List String) (string : String) :
    Except GError FileSystem :=
  if dirExists fs (os_path_dirname file) then
    .ok (fsWrite fs file (.text string))
  else .error .fileNotFound

/-- src/utils.py lines 49-58, `write_bytes_to_binary_file`:
`os.makedirs(os.path.dirname(file_name), exist_ok=True)` then
`open(file_name, "wb")` and write.  The destination path is taken exactly
as given — nothing compares it against `folder_file_path`, nothing rejects
`..` segments. -/
def ZipExtractor.write_bytes_to_binary_file (self : ZipExtractor)
    (fs : FileSystem) (file_bytes : List Nat) (file_name : List String) :
    Except GError FileSystem := do
  let fs1 ← os_makedirs fs (os_path_dirname file_name)
  if dirExists fs1 (os_path_dirname file_name) then
    .ok (fsWrite fs1 file_name (.binary file_bytes))
  else .error .fileNotFound

/-! ## Shared lemmas -/

/-- Binding a successful backend call continues with its value. -/
theorem except_bind_ok {α β : Type} (a : α) (f : α → Except GError β) :
    (Except.ok a >>= f) = f a := rfl

/-- Binding a failed backend call propagates the error. -/
theorem except_bind_error {α β : Type} (e : GError) (f : α → Except GError β) :
    ((Except.error e : Except GError α) >>= f) = .error e := rfl

/-- A nonempty path is among the directories `os.makedirs` creates for it. -/
theorem mem_initialSegs_self (d : List String) (h : d ≠ []) :
    d ∈ initialSegs d := by
  induction d with
  | nil => exact absurd rfl h
  | cons s rest ih =>
      cases rest with
      | nil => simp [initialSegs]
      | cons t ts =>
          simp only [initialSegs, List.mem_cons]
          right
          exact List.mem_map_of_mem _ (ih (by simp))

/-- Successful `os.makedirs` leaves the requested directory existing. -/
theorem os_makedirs_spec (fs : FileSystem) (d : List String) (h : d ≠ []) :
    os_makedirs fs d = .ok { fs with dirs := initialSegs d ++ fs.dirs } ∧
    dirExists { fs with dirs := initialSegs d ++ fs.dirs } d = true := by
  constructor
  · simp [os_makedirs, h]
  · simp only [dirExists, Bool.or_eq_true]
    right
    exact List.elem_eq_true_of_mem (List.mem_append_left _ (mem_initialSegs_self d h))

/-- Reading back right after a write yields exactly the written content. -/
theorem fsRead_fsWrite_self (fs : FileSystem) (p : List String) (v : FileData) :
    fsRead (fsWrite fs p v) p = some v := by
  simp [fsRead, fsWrite]

/-- A binary write through the extractor, on a destination whose parent
path is nonempty, always succeeds: directories are created and the file is
written with exactly the given bytes, whatever the path points at. -/
theorem write_bytes_spec (self : ZipExtractor) (fs : FileSystem)
    (file_bytes : List Nat) (file_name : List String)
    (h : os_path_dirname file_name ≠ []) :
    self.write_bytes_to_binary_file fs file_bytes file_name =
      .ok (fsWrite { fs with dirs := initialSegs (os_path_dirname file_name) ++ fs.dirs }
        file_name (.binary file_bytes)) := by
  obtain ⟨h1, h2⟩ := os_makedirs_spec fs (os_path_dirname file_name) h
  simp only [ZipExtractor.write_bytes_to_binary_file, h1, except_bind_ok, h2, if_true]

/-! ## Claim C1 -/

/-- Object storage state for the C1 counterexample: bucket `bkt` exists. -/
def c1_gcs_state : GCSState := { buckets := ["bkt"], blobs := [] }

/-- Broker state for the C1 counterexample: the topic already exists. -/
def c1_ps_state : PubSubState :=
  { topics := ["projects/proj/topics/top"], subscriptions := [],
    backlog := [], acked := [] }

/-- C1: the claim that every backend's create is a no-op on an existing
resource is false — `create_bucket` on an existing bucket of the same name
propagates the backend's Conflict, and so does `create_topic` on an
existing topic. -/
theorem C1_counterexample :
    GCSClientHelper.create_bucket { project_id := "proj" } c1_gcs_state "bkt"
      = .error .conflict ∧
    PubSubClientHelper.create_topic { project_id := "proj" } c1_ps_state "top"
      = .error .conflict := by
  exact ⟨rfl, rfl⟩

/-- C1 (amended): only the warehouse lifecycle creates have exists-ok
semantics — `create_dataset`, `create_table` and `create_view` pass
`exists_ok=True`, so on a target that already exists with the same identity
they succeed as no-ops leaving the backend state unchanged, with
`create_dataset` and `create_table` returning the existing handle
(`create_view` is annotated `-> None` and discards the handle the library
returns, so it merely succeeds); the storage and pub/sub creates instead
propagate the backend's already-exists error (see the counterexample). -/
theorem C1_amended (self : BigQueryClientHelper) (st : BQState)
    (dataset_id dataset_name table_name view_name query : String)
    (schema : List (String × String)) (partition_field : Option String)
    (cluster_fields : Option (List String)) (existing_table existing_view : BQTable)
    (hd : st.datasets.contains (bq_dataset_path self.project_id dataset_id) = true)
    (ht : st.tables.find? (fun u => u.table_id ==
      bq_table_path self.project_id dataset_name table_name) = some existing_table)
    (hv : st.tables.find? (fun u => u.table_id ==
      bq_table_path self.project_id dataset_name view_name) = some existing_view) :
    self.create_dataset st dataset_id
      = .ok (bq_dataset_path self.project_id dataset_id, st) ∧
    self.create_table st dataset_name table_name schema partition_field cluster_fields
      = .ok (existing_table, st) ∧
    self.create_view st dataset_name view_name query = .ok st := by
  have hd' : bq_dataset_path self.project_id dataset_id ∈ st.datasets := by
    simpa using hd
  refine ⟨?_, ?_, ?_⟩
  · simp [BigQueryClientHelper.create_dataset, bq_api_create_dataset, hd']
  · simp [BigQueryClientHelper.create_table, bq_api_create_table, ht]
  · simp [BigQueryClientHelper.create_view, bq_api_create_table, hv,
      except_bind_ok]

/-- An existing table for the C1 witness. -/
def c1_bq_table : BQTable :=
  { table_id := "proj.ds.tbl", schema := [("id", "INT64")],
    time_partitioning_field := none, clustering_fields := none,
    view_query := none }

/-- An existing view for the C1 witness. -/
def c1_bq_view : BQTable :=
  { table_id := "proj.ds.vw", schema := [],
    time_partitioning_field := none, clustering_fields := none,
    view_query := some "select 1" }

/-- Warehouse state for the C1 witness: dataset, table and view present. -/
def c1_bq_state : BQState :=
  { datasets := ["proj.ds"], tables := [c1_bq_table, c1_bq_view] }

/-- C1 witness: on a concrete state where dataset `proj.ds`, table
`proj.ds.tbl` and view `proj.ds.vw` exist, the warehouse creates succeed
as no-ops — the dataset and table creates return the existing handles, the
view create returns with the state unchanged. -/
theorem C1_amended_witness :
    BigQueryClientHelper.create_dataset { project_id := "proj" } c1_bq_state "ds"
      = .ok (bq_dataset_path "proj" "ds", c1_bq_state) ∧
    BigQueryClientHelper.create_table { project_id := "proj" } c1_bq_state "ds" "tbl"
      [("x", "STRING")] none none = .ok (c1_bq_table, c1_bq_state) ∧
    BigQueryClientHelper.create_view { project_id := "proj" } c1_bq_state "ds" "vw"
      "select 2" = .ok c1_bq_state :=
  C1_amended { project_id := "proj" } c1_bq_state "ds" "ds" "tbl" "vw" "select 2"
    [("x", "STRING")] none none c1_bq_table c1_bq_view (by rfl) (by rfl) (by rfl)

/-! ## Claim C2 -/

/-- Object storage state for the C2 counterexample: no buckets. -/
def c2_gcs_state : GCSState := { buckets := [], blobs := [] }

/-- Broker state for the C2 counterexample: no topics. -/
def c2_ps_state : PubSubState :=
  { topics := [], subscriptions := [], backlog := [], acked := [] }

/-- Warehouse state for the C2 witness: empty. -/
def c2_bq_state : BQState := { datasets := [], tables := [] }

/-- C2: the claim that every backend's delete succeeds silently on an
absent target is false — `delete_bucket` on an absent bucket propagates the
backend's NotFound (raised by `get_bucket`), and so does `delete_topic` on
an absent topic. -/
theorem C2_counterexample :
    GCSClientHelper.delete_bucket { project_id := "proj" } c2_gcs_state "bkt"
      = .error .notFound ∧
    PubSubClientHelper.delete_topic { project_id := "proj" } c2_ps_state "top"
      = .error .notFound := by
  exact ⟨rfl, rfl⟩

/-- Deleting a dataset that is absent (under the library's reference
resolution) is a silent no-op when `not_found_ok` is set. -/
theorem bq_api_delete_dataset_absent (project : String) (st : BQState)
    (dataset_ref : String) (delete_contents : Bool)
    (h : st.datasets.contains (bq_resolve_dataset_ref project dataset_ref)
      = false) :
    bq_api_delete_dataset project st dataset_ref delete_contents true
      = .ok st := by
  unfold bq_api_delete_dataset
  dsimp only
  rw [h]
  rfl

/-- A successful dataset delete leaves the dataset absent. -/
theorem bq_api_delete_dataset_removes (project : String) (st st' : BQState)
    (dataset_ref : String) (delete_contents : Bool)
    (h : bq_api_delete_dataset project st dataset_ref delete_contents true
      = .ok st') :
    st'.datasets.contains (bq_resolve_dataset_ref project dataset_ref)
      = false := by
  unfold bq_api_delete_dataset at h
  dsimp only at h
  split at h
  case isTrue hc =>
    split at h
    case isTrue =>
      have hst := Except.ok.inj h
      subst hst
      simp
    case isFalse => exact absurd h (by simp)
  case isFalse hc =>
    rw [if_pos rfl] at h
    have hst := Except.ok.inj h
    subst hst
    simpa using hc

/-- Deleting a table that is absent is a silent no-op when `not_found_ok`
is set. -/
theorem bq_api_delete_table_absent (st : BQState) (table_id : String)
    (h : st.tables.any (fun u => u.table_id == table_id) = false) :
    bq_api_delete_table st table_id true = .ok st := by
  unfold bq_api_delete_table
  rw [h]
  rfl

/-- A successful table delete leaves the table absent. -/
theorem bq_api_delete_table_removes (st st' : BQState) (table_id : String)
    (h : bq_api_delete_table st table_id true = .ok st') :
    st'.tables.any (fun u => u.table_id == table_id) = false := by
  unfold bq_api_delete_table at h
  split at h
  case isTrue hc =>
    have hst := Except.ok.inj h
    subst hst
    simp
  case isFalse hc =>
    rw [if_pos rfl] at h
    have hst := Except.ok.inj h
    subst hst
    simpa using hc

/-- C2 (amended): only the warehouse lifecycle deletes have not-found-ok
semantics — `delete_dataset`, `delete_table` and `delete_view` pass
`not_found_ok=True`, so on an already-absent target they succeed silently
with the backend state unchanged, and repeating a delete that just
succeeded with identical arguments also succeeds; the storage and pub/sub
deletes on an already-absent target propagate the backend's NotFound.
(On a present target, `delete_dataset` can still fail with BadRequest when
the dataset is non-empty and `delete_contents` is not set — a failure about
presence, not the absence case this claim is about.) -/
theorem C2_amended (bq : BigQueryClientHelper) (gcs : GCSClientHelper)
    (ps : PubSubClientHelper) (st t t1 t2 t3 : BQState)
    (gst : GCSState) (pst : PubSubState)
    (dataset_id dataset_name table_name view_name bucket_name topic_id : String)
    (delete_contents : Bool)
    (hds : st.datasets.contains (bq_resolve_dataset_ref bq.project_id dataset_id)
      = false)
    (htb : st.tables.any (fun u => u.table_id ==
      bq_table_path bq.project_id dataset_name table_name) = false)
    (hvw : st.tables.any (fun u => u.table_id ==
      bq_table_path bq.project_id dataset_name view_name) = false)
    (h1 : bq.delete_dataset t dataset_id delete_contents = .ok t1)
    (h2 : bq.delete_table t dataset_name table_name = .ok t2)
    (h3 : bq.delete_view t dataset_name view_name = .ok t3)
    (hb : gst.buckets.contains bucket_name = false)
    (hp : pst.topics.contains (pubsub_topic_path ps.project_id topic_id) = false) :
    bq.delete_dataset st dataset_id delete_contents = .ok st ∧
    bq.delete_table st dataset_name table_name = .ok st ∧
    bq.delete_view st dataset_name view_name = .ok st ∧
    bq.delete_dataset t1 dataset_id delete_contents = .ok t1 ∧
    bq.delete_table t2 dataset_name table_name = .ok t2 ∧
    bq.delete_view t3 dataset_name view_name = .ok t3 ∧
    gcs.delete_bucket gst bucket_name = .error .notFound ∧
    ps.delete_topic pst topic_id = .error .notFound := by
  refine ⟨?_, ?_, ?_, ?_, ?_, ?_, ?_, ?_⟩
  · exact bq_api_delete_dataset_absent bq.project_id st dataset_id
      delete_contents hds
  · exact bq_api_delete_table_absent st
      (bq_table_path bq.project_id dataset_name table_name) htb
  · exact bq_api_delete_table_absent st
      (bq_table_path bq.project_id dataset_name view_name) hvw
  · exact bq_api_delete_dataset_absent bq.project_id t1 dataset_id
      delete_contents
      (bq_api_delete_dataset_removes bq.project_id t t1 dataset_id
        delete_contents h1)
  · exact bq_api_delete_table_absent t2
      (bq_table_path bq.project_id dataset_name table_name)
      (bq_api_delete_table_removes t t2
        (bq_table_path bq.project_id dataset_name table_name) h2)
  · exact bq_api_delete_table_absent t3
      (bq_table_path bq.project_id dataset_name view_name)
      (bq_api_delete_table_removes t t3
        (bq_table_path bq.project_id dataset_name view_name) h3)
  · have hb' : bucket_name ∉ gst.buckets := by simpa using hb
    simp [GCSClientHelper.delete_bucket, gcs_api_get_bucket, hb', except_bind_error]
  · have hp' : pubsub_topic_path ps.project_id topic_id ∉ pst.topics := by
      simpa using hp
    simp [PubSubClientHelper.delete_topic, pubsub_api_delete_topic, hp']

/-- Warehouse state after the witness `delete_table`: only the view left. -/
def c2w_t2 : BQState := { datasets := ["proj.ds"], tables := [c1_bq_view] }

/-- Warehouse state after the witness `delete_view`: only the table left. -/
def c2w_t3 : BQState := { datasets := ["proj.ds"], tables := [c1_bq_table] }

/-- C2 witness: on concrete states, the warehouse deletes on absent targets
succeed silently without touching the state, repeating each delete that
just succeeded from the populated state also succeeds, and the storage and
pub/sub deletes on absent targets fail with NotFound. -/
theorem C2_amended_witness :
    BigQueryClientHelper.delete_dataset { project_id := "proj" } c2_bq_state
      "ds" true = .ok c2_bq_state ∧
    BigQueryClientHelper.delete_table { project_id := "proj" } c2_bq_state
      "ds" "tbl" = .ok c2_bq_state ∧
    BigQueryClientHelper.delete_view { project_id := "proj" } c2_bq_state
      "ds" "vw" = .ok c2_bq_state ∧
    BigQueryClientHelper.delete_dataset { project_id := "proj" } c2_bq_state
      "ds" true = .ok c2_bq_state ∧
    BigQueryClientHelper.delete_table { project_id := "proj" } c2w_t2
      "ds" "tbl" = .ok c2w_t2 ∧
    BigQueryClientHelper.delete_view { project_id := "proj" } c2w_t3
      "ds" "vw" = .ok c2w_t3 ∧
    GCSClientHelper.delete_bucket { project_id := "proj" } c2_gcs_state "bkt"
      = .error .notFound ∧
    PubSubClientHelper.delete_topic { project_id := "proj" } c2_ps_state "top"
      = .error .notFound :=
  C2_amended { project_id := "proj" } { project_id := "proj" }
    { project_id := "proj" } c2_bq_state c1_bq_state c2_bq_state c2w_t2 c2w_t3
    c2_gcs_state c2_ps_state "ds" "ds" "tbl" "vw" "bkt" "top" true
    (by rfl) (by rfl) (by rfl) (by rfl) (by rfl) (by rfl) (by rfl) (by rfl)

/-! ## Claim C3 -/

/-- Extractor for the C3 counterexample: a validated archive object whose
staging folder is `staging`. -/
def c3_extractor : ZipExtractor :=
  { zip_object := [80, 75, 3, 4], folder_file_path := ["staging"] }

/-- Filesystem for the C3 counterexample: only the staging root exists. -/
def c3_fs0 : FileSystem := { dirs := [["staging"]], files := [] }

/-- The traversing destination `staging/../evil.bin` of the C3
counterexample. -/
def c3_name : List String := ["staging", "..", "evil.bin"]

/-- Result of extracting the traversing entry in the C3 counterexample. -/
def c3_result : Except GError FileSystem :=
  c3_extractor.write_bytes_to_binary_file c3_fs0 [7] c3_name

/-- C3: the claim is false — the entry destination `staging/../evil.bin`
contains an upward segment and resolves outside the staging root, yet the
extraction write succeeds (no PathTraversalError exists anywhere in the
code) and the written file lies outside the staging root. -/
theorem C3_counterexample :
    pathHasUpSeg c3_name = true ∧
    isUnderRoot ["staging"] c3_name = false ∧
    callSucceeds c3_result = true ∧
    resultFilesOutside ["staging"] c3_result = [c3_name] := by
  exact ⟨rfl, rfl, rfl, rfl⟩

/-- C3 (amended): the source performs no path-traversal check at all —
`write_bytes_to_binary_file` takes every destination path with a nonempty
parent exactly as given, never raises a path-traversal failure, creates the
parent directories and writes the file there, whether or not the path
contains `..` or resolves outside the staging root given at construction. -/
theorem C3_amended (self : ZipExtractor) (fs : FileSystem)
    (file_bytes : List Nat) (file_name : List String)
    (h : os_path_dirname file_name ≠ []) :
    callSucceeds (self.write_bytes_to_binary_file fs file_bytes file_name) = true ∧
    self.write_bytes_to_binary_file fs file_bytes file_name =
      .ok (fsWrite { fs with dirs := initialSegs (os_path_dirname file_name) ++ fs.dirs }
        file_name (.binary file_bytes)) ∧
    fsRead (fsWrite { fs with dirs := initialSegs (os_path_dirname file_name) ++ fs.dirs }
        file_name (.binary file_bytes)) file_name = some (.binary file_bytes) := by
  have hw := write_bytes_spec self fs file_bytes file_name h
  exact ⟨by rw [hw]; rfl, hw, fsRead_fsWrite_self _ _ _⟩

/-- C3 witness: the traversing write of the counterexample scenario indeed
succeeds and its file is readable at the traversing destination. -/
theorem C3_amended_witness :
    callSucceeds (c3_extractor.write_bytes_to_binary_file c3_fs0 [7] c3_name) = true ∧
    c3_extractor.write_bytes_to_binary_file c3_fs0 [7] c3_name =
      .ok (fsWrite { c3_fs0 with dirs := initialSegs (os_path_dirname c3_name) ++ c3_fs0.dirs }
        c3_name (.binary [7])) ∧
    fsRead (fsWrite { c3_fs0 with dirs := initialSegs (os_path_dirname c3_name) ++ c3_fs0.dirs }
        c3_name (.binary [7])) c3_name = some (.binary [7]) :=
  C3_amended c3_extractor c3_fs0 [7] c3_name (by decide)

/-! ## Claim C4 -/

/-- A concrete archive-format checker for the C4 witness: accepts byte
streams beginning with the `PK` magic bytes. -/
def zip_magic_check (bs : List Nat) : Bool := bs.take 2 == [80, 75]

/-- C4: a byte stream the archive checker rejects never yields an
extractor — construction (`__init__`, which asserts `_check_is_zipfile`)
fails with the FormatError kind before anything else happens, and no
`ZipExtractor` object results from that stream; since all extraction
operations are methods receiving a `ZipExtractor`, none can ever be invoked
on an unvalidated stream. -/
theorem C4_validation_gate (is_zipfile : List Nat → Bool)
    (byte_stream : List Nat) (root : List String)
    (h : is_zipfile byte_stream = false) :
    mkZipExtractor is_zipfile byte_stream root = .error .formatError ∧
    callSucceeds (mkZipExtractor is_zipfile byte_stream root) = false := by
  have hgate : mkZipExtractor is_zipfile byte_stream root = .error .formatError := by
    simp [mkZipExtractor, ZipExtractor.check_is_zipfile, h]
  exact ⟨hgate, by rw [hgate]; rfl⟩

/-- C4 witness: the bytes `[0, 1, 2]` fail the magic check, and feeding
them to the constructor yields FormatError, not an extractor. -/
theorem C4_validation_gate_witness :
    zip_magic_check [0, 1, 2] = false ∧
    (mkZipExtractor zip_magic_check [0, 1, 2] ["staging"] = .error .formatError ∧
     callSucceeds (mkZipExtractor zip_magic_check [0, 1, 2] ["staging"]) = false) :=
  ⟨rfl, C4_validation_gate zip_magic_check [0, 1, 2] ["staging"] rfl⟩

/-! ## Claim C9 -/

/-- Filesystem for the C9 counterexample: no directories at all. -/
def c9_fs : FileSystem := { dirs := [], files := [] }

/-- Extractor object for the C9 scenarios. -/
def c9_extractor : ZipExtractor :=
  { zip_object := [80, 75], folder_file_path := ["out"] }

/-- C9: the claim that both write operations create missing intermediate
directories is false — `write_string_to_file` never calls `os.makedirs`,
so writing `out/notes.md` on a filesystem where directory `out` does not
exist fails with FileNotFoundError instead of creating the directory. -/
theorem C9_counterexample :
    c9_extractor.write_string_to_file c9_fs ["out", "notes.md"] "hello"
      = .error .fileNotFound := rfl

/-- C9 (amended): only the binary write creates missing intermediate
directories — `write_bytes_to_binary_file` (given a destination with a
nonempty parent path) runs `os.makedirs` and then truncates, so reading
back yields exactly the written bytes; `write_string_to_file` truncates an
existing file (reading back yields exactly the new text) but creates no
directories: with a missing parent directory it fails with
FileNotFoundError. -/
theorem C9_amended (self : ZipExtractor) (fs : FileSystem) (s : String)
    (b : List Nat) (p p' q : List String)
    (hq : os_path_dirname q ≠ [])
    (hp : dirExists fs (os_path_dirname p) = true)
    (hp' : dirExists fs (os_path_dirname p') = false) :
    self.write_bytes_to_binary_file fs b q =
      .ok (fsWrite { fs with dirs := initialSegs (os_path_dirname q) ++ fs.dirs }
        q (.binary b)) ∧
    fsRead (fsWrite { fs with dirs := initialSegs (os_path_dirname q) ++ fs.dirs }
        q (.binary b)) q = some (.binary b) ∧
    self.write_string_to_file fs p s = .ok (fsWrite fs p (.text s)) ∧
    fsRead (fsWrite fs p (.text s)) p = some (.text s) ∧
    self.write_string_to_file fs p' s = .error .fileNotFound := by
  refine ⟨write_bytes_spec self fs b q hq, fsRead_fsWrite_self _ _ _, ?_,
    fsRead_fsWrite_self _ _ _, ?_⟩
  · simp [ZipExtractor.write_string_to_file, hp]
  · simp [ZipExtractor.write_string_to_file, hp']

/-- Filesystem for the C9 witness: directory `out` exists and the file
`out/a.md` already holds old text (to be truncated). -/
def c9w_fs : FileSystem :=
  { dirs := [["out"]], files := [(["out", "a.md"], .text "old")] }

/-- C9 witness: on a concrete filesystem, the binary write creates its
directories and writes, the text write truncates `out/a.md` to the new
content, and the text write under the missing directory `nodir` fails. -/
theorem C9_amended_witness :
    c9_extractor.write_bytes_to_binary_file c9w_fs [9] ["sub", "c.bin"] =
      .ok (fsWrite { c9w_fs with dirs := initialSegs (os_path_dirname ["sub", "c.bin"]) ++ c9w_fs.dirs }
        ["sub", "c.bin"] (.binary [9])) ∧
    fsRead (fsWrite { c9w_fs with dirs := initialSegs (os_path_dirname ["sub", "c.bin"]) ++ c9w_fs.dirs }
        ["sub", "c.bin"] (.binary [9])) ["sub", "c.bin"] = some (.binary [9]) ∧
    c9_extractor.write_string_to_file c9w_fs ["out", "a.md"] "new"
      = .ok (fsWrite c9w_fs ["out", "a.md"] (.text "new")) ∧
    fsRead (fsWrite c9w_fs ["out", "a.md"] (.text "new")) ["out", "a.md"]
      = some (.text "new") ∧
    c9_extractor.write_string_to_file c9w_fs ["nodir", "b.md"] "x"
      = .error .fileNotFound :=
  C9_amended c9_extractor c9w_fs "new" [9] ["out", "a.md"] ["nodir", "b.md"]
    ["sub", "c.bin"] (by decide) (by rfl) (by rfl)

/-! ## Claim C5 -/

/-- C5: `move_blob` is copy-then-delete — whenever the phase of the code up
to and including the successful copy yields intermediate state `st1`, both
the source blob and the destination blob exist in `st1` (the state an
interruption between copy success and source deletion leaves behind, so the
non-atomicity is observable, not hidden), and the full `move_blob` is
exactly the source-blob delete applied after that copy phase — the copy is
performed strictly before the source is deleted. -/
theorem C5_move_blob_copy_then_delete (self : GCSClientHelper)
    (st st1 : GCSState) (bucket_name blob_name destination_bucket_name
    destination_blob_name : String)
    (h : self.move_blob_copy_phase st bucket_name blob_name
      destination_bucket_name destination_blob_name = .ok st1) :
    st1.blobExists bucket_name blob_name = true ∧
    st1.blobExists destination_bucket_name destination_blob_name = true ∧
    self.move_blob st bucket_name blob_name destination_bucket_name
      destination_blob_name = gcs_api_blob_delete st1 bucket_name blob_name := by
  have hmove : self.move_blob st bucket_name blob_name destination_bucket_name
      destination_blob_name = gcs_api_blob_delete st1 bucket_name blob_name := by
    simp only [GCSClientHelper.move_blob, h, except_bind_ok]
  unfold GCSClientHelper.move_blob_copy_phase gcs_api_get_bucket at h
  split at h
  case isFalse => rw [except_bind_error] at h; exact absurd h (by simp)
  case isTrue hsrc =>
    rw [except_bind_ok] at h
    split at h
    case isFalse => rw [except_bind_error] at h; exact absurd h (by simp)
    case isTrue hdst =>
      rw [except_bind_ok] at h
      unfold gcs_api_copy_blob at h
      cases hfind : st.blobs.find?
          (fun e => e.1 == (bucket_name, blob_name)) with
      | none => rw [hfind] at h; exact absurd h (by simp)
      | some e =>
          rw [hfind] at h
          have hst1 := Except.ok.inj h
          subst hst1
          have he1 : e.1 = (bucket_name, blob_name) := by
            simpa using List.find?_some hfind
          have hmem : e ∈ st.blobs := List.mem_of_find?_eq_some hfind
          refine ⟨?_, ?_, hmove⟩
          · by_cases heq :
              (bucket_name, blob_name) = (destination_bucket_name, destination_blob_name)
            · simp [GCSState.blobExists, heq]
            · have hfil : e ∈ st.blobs.filter
                  (fun u => u.1 ≠ (destination_bucket_name, destination_blob_name)) := by
                refine List.mem_filter.mpr ⟨hmem, ?_⟩
                simp [he1, heq]
              simp only [GCSState.blobExists, List.any_cons, List.any_eq_true,
                Bool.or_eq_true]
              right
              exact ⟨e, hfil, by simp [he1]⟩
          · simp [GCSState.blobExists]

/-- Object storage state for the C5 witness: buckets `a`, `b` and blob
`a/x`. -/
def c5_state : GCSState :=
  { buckets := ["a", "b"], blobs := [(("a", "x"), [1, 2])] }

/-- The interruption state of the C5 witness: copy done, source not yet
deleted — both `b/y` and `a/x` exist. -/
def c5_state1 : GCSState :=
  { buckets := ["a", "b"], blobs := [(("b", "y"), [1, 2]), (("a", "x"), [1, 2])] }

/-- C5 witness: moving `a/x` to `b/y` on the concrete state — after the
copy phase both blobs exist, and the whole move is that state followed by
the source delete. -/
theorem C5_move_blob_witness :
    GCSState.blobExists c5_state1 "a" "x" = true ∧
    GCSState.blobExists c5_state1 "b" "y" = true ∧
    GCSClientHelper.move_blob { project_id := "proj" } c5_state "a" "x" "b" "y"
      = gcs_api_blob_delete c5_state1 "a" "x" :=
  C5_move_blob_copy_then_delete { project_id := "proj" } c5_state c5_state1
    "a" "x" "b" "y" (by rfl)

/-! ## Claim C6 -/

/-- C6: whenever `pull_messages` returns, the returned payload sequence is
the pulled batch's payloads — at most `max_messages` of them — and every
ack id of that batch has been acknowledged to the broker (it is recorded in
the returned broker state) before the call returns. -/
theorem C6_pull_bounded_and_acknowledged (self : PubSubClientHelper)
    (st st2 : PubSubState) (subscription_id : String) (max_messages : Nat)
    (msgs : List String)
    (h : self.pull_messages st subscription_id max_messages
      = .ok (msgs, st2)) :
    msgs.length ≤ max_messages ∧
    msgs = (pubsub_pulled_batch st
      (pubsub_subscription_path self.project_id subscription_id)
      max_messages).map (fun m => m.2) ∧
    ((pubsub_pulled_batch st
      (pubsub_subscription_path self.project_id subscription_id)
      max_messages).map (fun m => m.1)).all
        (fun a => st2.acked.contains a) = true := by
  unfold PubSubClientHelper.pull_messages pubsub_api_pull at h
  dsimp only at h
  split at h
  case isFalse => rw [except_bind_error] at h; exact absurd h (by simp)
  case isTrue hsub =>
    rw [except_bind_ok] at h
    unfold pubsub_api_acknowledge at h
    rw [if_pos hsub, except_bind_ok] at h
    have hpair := Except.ok.inj h
    have hmsgs : msgs = (pubsub_pulled_batch st
        (pubsub_subscription_path self.project_id subscription_id)
        max_messages).map (fun m => m.2) := congrArg Prod.fst hpair.symm
    have hst2 := congrArg Prod.snd hpair.symm
    refine ⟨?_, hmsgs, ?_⟩
    · rw [hmsgs]
      calc ((pubsub_pulled_batch st _ max_messages).map (fun m => m.2)).length
          = (pubsub_pulled_batch st _ max_messages).length := List.length_map _ _
        _ ≤ max_messages := by
            simp [pubsub_pulled_batch]
    · rw [List.all_eq_true]
      intro a ha
      have : a ∈ st2.acked := by
        rw [congrArg PubSubState.acked hst2]
        simp only [List.mem_append]
        left
        simpa using ha
      exact List.elem_eq_true_of_mem this

/-- Broker state for the C6 witness: one subscription with one backlog
message. -/
def c6_state : PubSubState :=
  { topics := ["projects/proj/topics/top"],
    subscriptions := ["projects/proj/subscriptions/sub"],
    backlog := [("projects/proj/subscriptions/sub", "ack1", "hello")],
    acked := [] }

/-- Broker state after the C6 witness pull: the message left the backlog
and its ack id is acknowledged. -/
def c6_state2 : PubSubState :=
  { topics := ["projects/proj/topics/top"],
    subscriptions := ["projects/proj/subscriptions/sub"],
    backlog := [], acked := ["ack1"] }

/-- C6 witness: pulling with bound 10 on the concrete broker state returns
exactly `["hello"]` (one payload, within the bound) with its ack id
acknowledged in the returned state. -/
theorem C6_pull_witness :
    (["hello"] : List String).length ≤ 10 ∧
    (["hello"] : List String) = (pubsub_pulled_batch c6_state
      (pubsub_subscription_path "proj" "sub") 10).map (fun m => m.2) ∧
    ((pubsub_pulled_batch c6_state
      (pubsub_subscription_path "proj" "sub") 10).map (fun m => m.1)).all
        (fun a => c6_state2.acked.contains a) = true :=
  C6_pull_bounded_and_acknowledged { project_id := "proj" } c6_state c6_state2
    "sub" 10 ["hello"] (by rfl)

/-! ## Claim C7 -/

/-- C7: `blob_to_bigquery_table` submits a CSV load job for
`gs://{bucket}/{blob}` into `table_id` and blocks on `load_job.result()`:
the call's final outcome is exactly the completed job's wait result — it
returns normally when the job succeeds, and fails carrying the job's
diagnostics exactly when the backend job fails. -/
theorem C7_load_waits_and_propagates (self : GCSClientHelper)
    (outcome : JobOutcome) (bucket_name blob_name table_id diag : String)
    (job : LoadJob) (r : Except GError Unit)
    (h : self.blob_to_bigquery_table outcome bucket_name blob_name table_id
      = (job, r)) :
    r = job.wait_result ∧
    job.uri = gcs_uri bucket_name blob_name ∧
    job.table_id = table_id ∧
    job.source_format = "CSV" ∧
    job.outcome = outcome ∧
    (outcome = .success → r = .ok ()) ∧
    (outcome = .failure diag → r = .error (.loadJobFailed diag)) := by
  unfold GCSClientHelper.blob_to_bigquery_table at h
  injection h with hjob hr
  subst hjob
  subst hr
  refine ⟨rfl, rfl, rfl, rfl, rfl, ?_, ?_⟩
  · intro hs; subst hs; rfl
  · intro hf; subst hf; rfl

/-- C7 witness: a failing job on a concrete request — the call's result is
the job's wait result and carries the diagnostics `boom`. -/
theorem C7_load_witness :
    (Except.error (.loadJobFailed "boom") : Except GError Unit) =
      (LoadJob.mk (gcs_uri "bkt" "f.csv") "proj.ds.tbl" "CSV"
        (.failure "boom")).wait_result ∧
    (LoadJob.mk (gcs_uri "bkt" "f.csv") "proj.ds.tbl" "CSV"
        (.failure "boom")).uri = gcs_uri "bkt" "f.csv" ∧
    (LoadJob.mk (gcs_uri "bkt" "f.csv") "proj.ds.tbl" "CSV"
        (.failure "boom")).table_id = "proj.ds.tbl" ∧
    (LoadJob.mk (gcs_uri "bkt" "f.csv") "proj.ds.tbl" "CSV"
        (.failure "boom")).source_format = "CSV" ∧
    (LoadJob.mk (gcs_uri "bkt" "f.csv") "proj.ds.tbl" "CSV"
        (.failure "boom")).outcome = JobOutcome.failure "boom" ∧
    (JobOutcome.failure "boom" = JobOutcome.success →
      (Except.error (.loadJobFailed "boom") : Except GError Unit) = .ok ()) ∧
    (JobOutcome.failure "boom" = JobOutcome.failure "boom" →
      (Except.error (.loadJobFailed "boom") : Except GError Unit)
        = .error (.loadJobFailed "boom")) :=
  C7_load_waits_and_propagates { project_id := "proj" } (.failure "boom")
    "bkt" "f.csv" "proj.ds.tbl" "boom"
    (LoadJob.mk (gcs_uri "bkt" "f.csv") "proj.ds.tbl" "CSV" (.failure "boom"))
    (.error (.loadJobFailed "boom")) rfl

/-! ## Claim C8 -/

/-- C8: every resolver is a pure function of its identity components —
for each backend's path formatter, identical component tuples always yield
identical fully-qualified path strings (no hidden state enters the
formatting). -/
theorem C8_resolver_deterministic
    (p1 p2 d1 d2 t1 t2 l1 l2 i1 i2 b1 b2 o1 o2 : String)
    (hp : p1 = p2) (hd : d1 = d2) (ht : t1 = t2) (hl : l1 = l2)
    (hi : i1 = i2) (hb : b1 = b2) (ho : o1 = o2) :
    bq_dataset_path p1 d1 = bq_dataset_path p2 d2 ∧
    bq_table_path p1 d1 t1 = bq_table_path p2 d2 t2 ∧
    memorystore_instance_path (memorystore_parent_path p1 l1) i1
      = memorystore_instance_path (memorystore_parent_path p2 l2) i2 ∧
    pubsub_topic_path p1 t1 = pubsub_topic_path p2 t2 ∧
    pubsub_subscription_path p1 i1 = pubsub_subscription_path p2 i2 ∧
    gcs_uri b1 o1 = gcs_uri b2 o2 := by
  subst hp; subst hd; subst ht; subst hl; subst hi; subst hb; subst ho
  exact ⟨rfl, rfl, rfl, rfl, rfl, rfl⟩

/-- C8 witness: the resolvers at a concrete component tuple, twice. -/
theorem C8_resolver_witness :
    bq_dataset_path "p" "d" = bq_dataset_path "p" "d" ∧
    bq_table_path "p" "d" "t" = bq_table_path "p" "d" "t" ∧
    memorystore_instance_path (memorystore_parent_path "p" "l") "i"
      = memorystore_instance_path (memorystore_parent_path "p" "l") "i" ∧
    pubsub_topic_path "p" "t" = pubsub_topic_path "p" "t" ∧
    pubsub_subscription_path "p" "i" = pubsub_subscription_path "p" "i" ∧
    gcs_uri "b" "o" = gcs_uri "b" "o" :=
  C8_resolver_deterministic "p" "p" "d" "d" "t" "t" "l" "l" "i" "i" "b" "b"
    "o" "o" rfl rfl rfl rfl rfl rfl rfl

/-! ## Claim C10 -/

/-- C10: on an existing table, `read_row` returns the empty dict for a row
key that is absent (no not-found error), and the row's data as a dict for
a row key that is present. -/
theorem C10_read_row_absent_vs_present (self : BigtableClientHelper)
    (st : BTState) (instance_id table_id k_absent k_present : String)
    (d : BTRowData)
    (htab : st.tables.contains (instance_id, table_id) = true)
    (habs : st.rows.find?
      (fun r => r.1 == (instance_id, table_id, k_absent)) = none)
    (hpres : st.rows.find?
      (fun r => r.1 == (instance_id, table_id, k_present))
      = some ((instance_id, table_id, k_present), d)) :
    self.read_row st instance_id table_id k_absent = .ok ([] : BTRowData) ∧
    self.read_row st instance_id table_id k_present = .ok d := by
  have htab' : (instance_id, table_id) ∈ st.tables := by simpa using htab
  constructor
  · simp [BigtableClientHelper.read_row, bigtable_api_read_row, htab', habs,
      except_bind_ok]
  · simp [BigtableClientHelper.read_row, bigtable_api_read_row, htab', hpres,
      except_bind_ok]

/-- Row data for the C10 witness. -/
def c10_row : BTRowData := [("cf", [("col", "v")])]

/-- Wide-column state for the C10 witness: one instance, one table, one
row under key `k1`. -/
def c10_state : BTState :=
  { instances := ["inst"], tables := [("inst", "tbl")],
    rows := [(("inst", "tbl", "k1"), c10_row)] }

/-- C10 witness: reading the missing key `nope` yields the empty dict and
reading the present key `k1` yields its data. -/
theorem C10_read_row_witness :
    BigtableClientHelper.read_row { project_id := "proj" } c10_state
      "inst" "tbl" "nope" = .ok ([] : BTRowData) ∧
    BigtableClientHelper.read_row { project_id := "proj" } c10_state
      "inst" "tbl" "k1" = .ok c10_row :=
  C10_read_row_absent_vs_present { project_id := "proj" } c10_state
    "inst" "tbl" "nope" "k1" c10_row (by rfl) (by rfl) (by rfl)
